import Mathlib

/-!
Verification of the BiDShot firmware core (DShot driver with bidirectional
telemetry and serial ESC telemetry parser).

The definitions below are a shallow embedding of the C sources:
  - src/inc/dshot.h        (timing macros, protocol constants)
  - src/src/dshot.c        (frame codec, bidirectional protocol state machine,
                            GCR telemetry decoder)
  - src/unnamed/part_001   (serial ESC telemetry parser, esc_telemetry.c)

Machine integers are modelled as Nat with explicit truncation (% 2^w) at the
points where the C code can overflow its integer type.  Fallible C code that
signals failure through sentinel values or bool returns is modelled with
Option.  Each numbered claim is settled by one theorem near the end of the
file.
-/

/-! ## Timing constants, from src/inc/dshot.h lines 20 and 54-59.

The C macros, copied operator for operator (all integer division):
  DSHOT_SPEED          600
  TIMER_CLOCK_HZ       168000000
  DSHOT_BIT_TIME_US    (1000000UL / (DSHOT_SPEED * 1000UL))
  DSHOT_TIMER_PERIOD   ((TIMER_CLOCK_HZ * DSHOT_BIT_TIME_US) / 1000000UL)
  DSHOT_BIT_0_DUTY     (DSHOT_TIMER_PERIOD * 37 / 100)
  DSHOT_BIT_1_DUTY     (DSHOT_TIMER_PERIOD * 75 / 100)
-/

def DSHOT_SPEED : Nat := 600

def TIMER_CLOCK_HZ : Nat := 168000000

def DSHOT_BIT_TIME_US : Nat := 1000000 / (DSHOT_SPEED * 1000)

def DSHOT_TIMER_PERIOD : Nat := (TIMER_CLOCK_HZ * DSHOT_BIT_TIME_US) / 1000000

def DSHOT_BIT_0_DUTY : Nat := DSHOT_TIMER_PERIOD * 37 / 100

def DSHOT_BIT_1_DUTY : Nat := DSHOT_TIMER_PERIOD * 75 / 100

def DSHOT_FRAME_SIZE : Nat := 16

def DSHOT_THROTTLE_MAX : Nat := 2047

def DSHOT_CMD_MAX : Nat := 47

/-- The timer period the spec prescribes: T_bit = f_tck / (speed * 1000). -/
def spec_timer_period : Nat := TIMER_CLOCK_HZ / (DSHOT_SPEED * 1000)

/-! ## Frame codec, from src/src/dshot.c lines 482-517 (bidirectional file).

dshot_create_packet builds the 16-bit frame
  [11-bit value][1-bit telemetry][4-bit CRC].
All intermediate values are uint16_t in C; the truncations `% 65536`
mark the uint16 stores.
-/

def dshot_create_packet (value : Nat) (request_telemetry : Bool) : Nat :=
  let packet := ((value <<< 1) ||| (if request_telemetry then 1 else 0)) % 65536
  let crc := (packet ^^^ (packet >>> 4) ^^^ (packet >>> 8)) &&& 0x0F
  ((packet <<< 4) ||| crc) % 65536

/-- Inverted duty for a logical 0 in bidirectional mode (dshot.c line 504). -/
def bidir_bit_0_duty : Nat := DSHOT_TIMER_PERIOD - DSHOT_BIT_0_DUTY

/-- Inverted duty for a logical 1 in bidirectional mode (dshot.c line 505). -/
def bidir_bit_1_duty : Nat := DSHOT_TIMER_PERIOD - DSHOT_BIT_1_DUTY

/-- The loop body of dshot_encode_dma_buffer: emit one duty per bit,
testing bit 15 and shifting the uint16 packet left each iteration. -/
def dshot_encode_loop (packet : Nat) : Nat → List Nat
  | 0 => []
  | n + 1 =>
    (if packet &&& 0x8000 ≠ 0 then bidir_bit_1_duty else bidir_bit_0_duty) ::
      dshot_encode_loop ((packet <<< 1) % 65536) n

/-- dshot_encode_dma_buffer (bidirectional variant, dshot.c lines 502-517):
16 data slots MSB first, then the trailing slot held at DSHOT_TIMER_PERIOD
(full high idle). -/
def dshot_encode_dma_buffer (packet : Nat) : List Nat :=
  dshot_encode_loop packet DSHOT_FRAME_SIZE ++ [DSHOT_TIMER_PERIOD]

/-- XOR of the four nibbles of a 16-bit frame. -/
def frame_nibble_xor (f : Nat) : Nat :=
  ((f >>> 12) &&& 0xF) ^^^ ((f >>> 8) &&& 0xF) ^^^ ((f >>> 4) &&& 0xF) ^^^ (f &&& 0xF)

/-- Modelled from the spec: there is no command-frame decoder in the source;
the spec's codec round-trip law defines one by CRC-check plus field
extraction (spec section 8): verify that the XOR-of-nibbles CRC of the upper
12 bits matches the low nibble, then recover the 11-bit value and the
telemetry bit. -/
def decode_dshot_frame (f : Nat) : Option (Nat × Bool) :=
  let payload := f >>> 4
  let crc := f &&& 0xF
  if (payload ^^^ (payload >>> 4) ^^^ (payload >>> 8)) &&& 0xF = crc then
    some (f >>> 5, (f >>> 4) &&& 1 = 1)
  else
    none

/-! ## GCR telemetry decoder, from src/src/dshot.c lines 192-211 and 571-690.

Constants DSHOT_TELEM_BITRATE, DSHOT_IC_BUFFER_SIZE and MOTOR_POLES come
from the bidirectional variant's dshot.h, which is the second segment of
src/inc/uart.h (its lines 59-236).
-/

/-- DSHOT_TELEM_BITRATE, from the bidirectional dshot.h (src/inc/uart.h
line 137): the reply runs at 5/4 of the command bitrate,
(DSHOT_SPEED * 1000 * 5 / 4) = 750000 for DShot600. -/
def DSHOT_TELEM_BITRATE : Nat := DSHOT_SPEED * 1000 * 5 / 4

/-- MOTOR_POLES, from the bidirectional dshot.h (src/inc/uart.h line 159):
motor pole count 14 for the rpm calculation.  The esc_telemetry.h segments
of src/DSHOT_REFERENCE.md define the same value. -/
def MOTOR_POLES : Nat := 14

/-- DSHOT_IC_BUFFER_SIZE, from the bidirectional dshot.h (src/inc/uart.h
line 156): the input-capture buffer holds up to 32 edges. -/
def DSHOT_IC_BUFFER_SIZE : Nat := 32

/-- GCR decoding lookup table (dshot.c lines 196-201): maps 5-bit GCR
symbols to 4-bit nibbles, invalid codes map to 0xFF. -/
def gcr_decode_table : List Nat :=
  [0xFF, 0xFF, 0xFF, 0xFF, 0xFF, 0xFF, 0xFF, 0xFF,
   0xFF, 0x09, 0x0A, 0x0B, 0xFF, 0x0D, 0x0E, 0x0F,
   0xFF, 0xFF, 0x02, 0x03, 0xFF, 0x05, 0x06, 0x07,
   0xFF, 0x00, 0x08, 0x01, 0xFF, 0x04, 0x0C, 0xFF]

/-- The loop of dshot_decode_gcr over the four 5-bit symbols, taken at
shift amounts 15, 10, 5, 0 (dshot.c lines 575-584).  The C sentinel return
0xFFFFFFFF for an invalid symbol is modelled as none. -/
def dshot_decode_gcr_loop (g : Nat) : List Nat → Nat → Option Nat
  | [], acc => some acc
  | sh :: rest, acc =>
    let nibble := gcr_decode_table.getD ((g >>> sh) &&& 0x1F) 0xFF
    if nibble = 0xFF then none
    else dshot_decode_gcr_loop g rest ((acc <<< 4) ||| nibble)

/-- dshot_decode_gcr (dshot.c lines 571-587): extract 4 nibbles from the
20 GCR bits, MSB first. -/
def dshot_decode_gcr (g : Nat) : Option Nat :=
  dshot_decode_gcr_loop g [15, 10, 5, 0] 0

/-- Telemetry bit period in timer ticks (dshot.c line 609):
168 MHz / 750000 = 224. -/
def telem_bit_period : Nat := TIMER_CLOCK_HZ / DSHOT_TELEM_BITRATE

/-- Half of the telemetry bit period (dshot.c line 610). -/
def telem_half_bit : Nat := telem_bit_period / 2

/-- Inner emission loop (dshot.c lines 633-636): append num_bits copies of
the current level to gcr_bits, stopping at 21 bits. -/
def dshot_emit_bits (bits count level : Nat) : Nat → Nat × Nat
  | 0 => (bits, count)
  | n + 1 =>
    if count < 21 then dshot_emit_bits ((bits <<< 1) ||| level) (count + 1) level n
    else (bits, count)

/-- Time between two successive captured edges, with one 16-bit timer wrap
handled (dshot.c lines 619-625). -/
def edge_delta (prev cur : Nat) : Nat :=
  if prev ≤ cur then cur - prev else (0xFFFF - prev) + cur + 1

/-- Outer edge loop (dshot.c lines 617-640): per interval, compute the
rounded number of bit periods (a uint8_t in C, hence the % 256), clamp it
to [1,5], emit that many copies of the current level, then toggle the
level. -/
def dshot_edge_loop (prev : Nat) : List Nat → Nat → Nat → Nat → Nat × Nat
  | [], bits, count, _ => (bits, count)
  | cur :: rest, bits, count, level =>
    if count < 21 then
      let delta := edge_delta prev cur
      let nb0 := ((delta + telem_half_bit) / telem_bit_period) % 256
      let nb1 := if nb0 = 0 then 1 else nb0
      let nb := if nb1 > 5 then 5 else nb1
      let bc := dshot_emit_bits bits count level nb
      dshot_edge_loop cur rest bc.1 bc.2 (level ^^^ 1)
    else (bits, count)

/-- Result record of a successful telemetry decode: the values stored into
telemetry.period_us, telemetry.erpm and telemetry.rpm (dshot.c
lines 671-687). -/
structure TelemResult where
  period : Nat
  erpm : Nat
  rpm : Nat
  deriving Repr, DecidableEq

/-- The telemetry stores of dshot.c lines 671-687: period_us is the
decoded period; when it is positive, erpm = 60000000 / period and
rpm = erpm * 2 / MOTOR_POLES; a zero period yields zero rpm and erpm. -/
def dshot_mk_telem_result (period : Nat) : TelemResult :=
  if 0 < period then
    { period := period
      erpm := 60000000 / period
      rpm := 60000000 / period * 2 / MOTOR_POLES }
  else
    { period := period, erpm := 0, rpm := 0 }

/-- dshot_decode_telemetry (dshot.c lines 600-690).  Every `return false`
of the C function becomes none; on success the stored period/erpm/rpm are
returned.  The separately computed `calculated_crc` of dshot.c lines
660-661 is dead in the C source (the comparison uses crc_check) and is
omitted. -/
def dshot_decode_telemetry (icBuf : List Nat) : Option TelemResult :=
  if icBuf.length < 2 then none
  else
    match icBuf with
    | [] => none
    | first :: rest =>
      let bc := dshot_edge_loop first rest 0 0 1
      if bc.2 < 20 then none
      else
        let gcr_value := (bc.1 >>> 1) &&& 0xFFFFF
        match dshot_decode_gcr gcr_value with
        | none => none
        | some decoded =>
          let period := (decoded >>> 4) &&& 0x0FFF
          let received_crc := decoded &&& 0x0F
          let temp := decoded >>> 4
          let crc_check := (temp ^^^ (temp >>> 4) ^^^ (temp >>> 8)) &&& 0x0F
          if received_crc ≠ crc_check then none
          else some (dshot_mk_telem_result period)

/-! ## Bidirectional protocol state machine, from src/src/dshot.c
lines 216-294 (init), 392-447 (send), 522-563 (dshot_update) and
695-718 (the two DMA interrupt handlers).

The five states come from the bidirectional variant's dshot_state_t; the
hardware pin configuration is abstracted to the two modes that
dshot_switch_to_output and dshot_switch_to_input establish.  Hardware
inputs (the DMA capture progress handed over in RECEIVING, and the capture
buffer present when the input-capture DMA completes) are parameters of the
corresponding events.
-/

inductive DshotState
  | idle
  | sending
  | waitTelem
  | receiving
  | processing
  deriving Repr, DecidableEq

inductive PinMode
  | output
  | input
  deriving Repr, DecidableEq

/-- The dshot_telemetry_t record (telemetry fields and counters). -/
structure DshotTelemetry where
  valid : Bool
  frame_count : Nat
  success_count : Nat
  error_count : Nat
  period_us : Nat
  erpm : Nat
  rpm : Nat
  last_update : Nat
  deriving Repr, DecidableEq

/-- The module-level mutable state of the bidirectional dshot.c driver. -/
structure Driver where
  state : DshotState
  pin : PinMode
  tick : Nat
  telemStart : Nat
  icBuf : List Nat
  dmaBuffer : List Nat
  telemetry : DshotTelemetry
  newTelemetryAvailable : Bool
  deriving Repr, DecidableEq

/-- dshot_init (dshot.c lines 216-294): pin configured for output, state
IDLE, telemetry counters and valid flag cleared (the statics start
zero-initialized). -/
def dshot_init : Driver :=
  { state := .idle
    pin := .output
    tick := 0
    telemStart := 0
    icBuf := []
    dmaBuffer := List.replicate (DSHOT_FRAME_SIZE + 1) 0
    telemetry :=
      { valid := false, frame_count := 0, success_count := 0, error_count := 0
        period_us := 0, erpm := 0, rpm := 0, last_update := 0 }
    newTelemetryAvailable := false }

/-- dshot_send_throttle (dshot.c lines 392-421): reject unless IDLE, clamp
to DSHOT_THROTTLE_MAX, encode with the telemetry-request bit set, switch
the pin to output, enter SENDING and count the frame. -/
def dshot_send_throttle (throttle : Nat) (s : Driver) : Driver :=
  if s.state ≠ .idle then s
  else
    let thr := if throttle > DSHOT_THROTTLE_MAX then DSHOT_THROTTLE_MAX else throttle
    { s with
      dmaBuffer := dshot_encode_dma_buffer (dshot_create_packet thr true)
      pin := .output
      state := .sending
      telemetry := { s.telemetry with frame_count := s.telemetry.frame_count + 1 } }

/-- dshot_send_command (dshot.c lines 426-447): only commands up to
DSHOT_CMD_MAX, reject unless IDLE, encode with the telemetry-request bit
clear; the frame counter is not touched. -/
def dshot_send_command (command : Nat) (s : Driver) : Driver :=
  if command ≤ DSHOT_CMD_MAX then
    if s.state ≠ .idle then s
    else
      { s with
        dmaBuffer := dshot_encode_dma_buffer (dshot_create_packet command false)
        pin := .output
        state := .sending }
  else s

/-- DMA2_Stream1_IRQHandler (dshot.c lines 695-704): on transmit complete
while SENDING, enter WAIT_TELEM and record the tick. -/
def dshot_tx_done_irq (s : Driver) : Driver :=
  if s.state = .sending then { s with state := .waitTelem, telemStart := s.tick }
  else s

/-- DMA2_Stream6_IRQHandler (dshot.c lines 709-718): on capture-buffer
full while RECEIVING, stop the capture (the captured edges are handed over
by the hardware) and enter PROCESSING. -/
def dshot_rx_done_irq (buf : List Nat) (s : Driver) : Driver :=
  if s.state = .receiving then { s with icBuf := buf, state := .processing }
  else s

/-- dshot_update (dshot.c lines 522-563).  `captured` is the sequence of
edge timestamps the capture DMA has stored so far, supplied by the
hardware environment; it is inspected in RECEIVING and handed to the
decoder.  The decode-and-publish order follows the C PROCESSING branch:
on success write period/erpm/rpm, raise valid, count the success, record
the tick and raise the one-shot flag; on failure only count the error;
either way switch the pin back to output and return to IDLE. -/
def dshot_update (captured : List Nat) (s₀ : Driver) : Driver :=
  let s := { s₀ with tick := s₀.tick + 1 }
  match s.state with
  | .waitTelem =>
    if s.tick - s.telemStart ≥ 1 then
      { s with pin := .input, icBuf := [], telemStart := s.tick, state := .receiving }
    else s
  | .receiving =>
    if captured.length ≥ 20 ∨ s.tick - s.telemStart ≥ 2 then
      { s with icBuf := captured, state := .processing }
    else s
  | .processing =>
    let s' :=
      match dshot_decode_telemetry s.icBuf with
      | some r =>
        { s with
          telemetry :=
            { s.telemetry with
              period_us := r.period, erpm := r.erpm, rpm := r.rpm
              valid := true
              success_count := s.telemetry.success_count + 1
              last_update := s.tick }
          newTelemetryAvailable := true }
      | none =>
        { s with telemetry := { s.telemetry with error_count := s.telemetry.error_count + 1 } }
    { s' with pin := .output, state := .idle }
  | _ => s

/-- The events that drive the state machine: the two API calls, the two
DMA interrupts and the cooperative poll. -/
inductive Event
  | sendThrottle (v : Nat)
  | sendCommand (c : Nat)
  | txDone
  | rxDone (buf : List Nat)
  | update (captured : List Nat)

def Driver.step (s : Driver) : Event → Driver
  | .sendThrottle v => dshot_send_throttle v s
  | .sendCommand c => dshot_send_command c s
  | .txDone => dshot_tx_done_irq s
  | .rxDone buf => dshot_rx_done_irq buf s
  | .update captured => dshot_update captured s

/-- States reachable from dshot_init under any event sequence. -/
inductive Reachable : Driver → Prop
  | init : Reachable dshot_init
  | step {s : Driver} (e : Event) : Reachable s → Reachable (s.step e)

/-- Whether an event is a dshot_send_command call. -/
def Event.isSendCommand : Event → Bool
  | .sendCommand _ => true
  | _ => false

/-- States reachable from dshot_init when the caller never uses
dshot_send_command (throttle-only operation). -/
inductive ReachableNoCmd : Driver → Prop
  | init : ReachableNoCmd dshot_init
  | step {s : Driver} (e : Event) (h : e.isSendCommand = false) :
      ReachableNoCmd s → ReachableNoCmd (s.step e)

/-! ## Serial ESC telemetry parser (variant a), from src/unnamed/part_001
lines 99-277 (the serial esc_telemetry.c).

ESC_TELEM_PACKET_SIZE and ESC_TELEM_TIMEOUT_MS come from the serial
esc_telemetry.h, which is the second segment of src/DSHOT_REFERENCE.md
(its lines 224-320).
-/

/-- ESC_TELEM_PACKET_SIZE, from the serial esc_telemetry.h
(src/DSHOT_REFERENCE.md line 255): the telemetry packet is 10 bytes. -/
def ESC_TELEM_PACKET_SIZE : Nat := 10

/-- ESC_TELEM_TIMEOUT_MS, from the serial esc_telemetry.h
(src/DSHOT_REFERENCE.md line 256): the inter-byte reassembly timeout is
100 ticks. -/
def ESC_TELEM_TIMEOUT_MS : Nat := 100

/-- One round of the CRC-8 inner loop (part_001 lines 129-135): shift left,
conditionally XOR the polynomial 0xD5; the result is stored back into a
uint8_t, hence the % 256. -/
def esc_crc8_round (crc : Nat) : Nat :=
  if crc &&& 0x80 ≠ 0 then ((crc <<< 1) ^^^ 0xD5) % 256 else (crc <<< 1) % 256

/-- Eight rounds of the CRC-8 inner loop. -/
def esc_crc8_rounds (crc : Nat) : Nat → Nat
  | 0 => crc
  | n + 1 => esc_crc8_rounds (esc_crc8_round crc) n

/-- esc_telemetry_crc8 (part_001 lines 125-138): CRC-8 with polynomial
0xD5, initial value 0, MSB first, over the given bytes. -/
def esc_telemetry_crc8 (data : List Nat) : Nat :=
  data.foldl (fun crc b => esc_crc8_rounds ((crc ^^^ b) % 256) 8) 0

/-- The esc_telemetry_t record exposed by the serial parser. -/
structure EscRecord where
  temperature : Nat
  voltage : Nat
  current : Nat
  consumption : Nat
  erpm : Nat
  rpm : Nat
  valid : Bool
  last_update : Nat
  deriving Repr, DecidableEq

/-- esc_telemetry_parse_packet (part_001 lines 143-165): verify the CRC-8
of bytes 0..8 against byte 9; on success populate the record from the
big-endian fields and compute rpm = erpm * 100 * 2 / MOTOR_POLES; on
failure return the record untouched. -/
def esc_telemetry_parse_packet (buf : List Nat) (tick : Nat) (t : EscRecord) :
    Bool × EscRecord :=
  if esc_telemetry_crc8 (buf.take (ESC_TELEM_PACKET_SIZE - 1)) = buf.getD 9 0 then
    let erpm := ((buf.getD 7 0) <<< 8) ||| buf.getD 8 0
    (true,
      { temperature := buf.getD 0 0
        voltage := ((buf.getD 1 0) <<< 8) ||| buf.getD 2 0
        current := ((buf.getD 3 0) <<< 8) ||| buf.getD 4 0
        consumption := ((buf.getD 5 0) <<< 8) ||| buf.getD 6 0
        erpm := erpm
        rpm := erpm * 100 * 2 / MOTOR_POLES
        valid := true
        last_update := tick })
  else (false, t)

/-- The module-level mutable state of the serial esc_telemetry.c.  The
rx_buffer array and rx_index are modelled together as the list of the
rx_index bytes stored so far (every array read and write in the C source
is below rx_index). -/
structure EscTelem where
  rxBuf : List Nat
  telem : EscRecord
  newData : Bool
  lastByteTime : Nat
  tick : Nat
  deriving Repr, DecidableEq

/-- esc_telemetry_init (part_001 lines 199-201 resets): empty buffer,
record invalid, counters zero (the statics start zero-initialized). -/
def esc_telemetry_init : EscTelem :=
  { rxBuf := []
    telem :=
      { temperature := 0, voltage := 0, current := 0, consumption := 0
        erpm := 0, rpm := 0, valid := false, last_update := 0 }
    newData := false
    lastByteTime := 0
    tick := 0 }

/-- esc_telemetry_tick (part_001 lines 209-211). -/
def esc_telemetry_tick (s : EscTelem) : EscTelem :=
  { s with tick := s.tick + 1 }

/-- The body of the byte-processing while loop of esc_telemetry_update
(part_001 lines 223-239): read a byte from the data register (a uint8_t,
hence the % 256), record the arrival tick, store it if the index is below
the packet size, and on a complete packet parse it and reset the index.
Besides the new state, the index of the buffer store (when one happened)
is returned, so that bounds can be stated about it. -/
def esc_process_byte (s : EscTelem) (b : Nat) : EscTelem × Option Nat :=
  let byte := b % 256
  let widx := if s.rxBuf.length < ESC_TELEM_PACKET_SIZE then some s.rxBuf.length else none
  let buf := if s.rxBuf.length < ESC_TELEM_PACKET_SIZE then s.rxBuf ++ [byte] else s.rxBuf
  let s := { s with lastByteTime := s.tick, rxBuf := buf }
  if s.rxBuf.length ≥ ESC_TELEM_PACKET_SIZE then
    let pr := esc_telemetry_parse_packet s.rxBuf s.tick s.telem
    ({ s with telem := pr.2, newData := s.newData || pr.1, rxBuf := [] }, widx)
  else (s, widx)

/-- The while loop of esc_telemetry_update over all available bytes,
collecting the buffer store indices. -/
def esc_process_bytes (s : EscTelem) : List Nat → EscTelem × List Nat
  | [] => (s, [])
  | b :: rest =>
    let pr := esc_process_byte s b
    let toP := esc_process_bytes pr.1 rest
    (toP.1, pr.2.toList ++ toP.2)

/-- esc_telemetry_update (part_001 lines 216-246): reset the buffer on an
inter-byte timeout, process all bytes the serial source delivers, reset
the buffer on a hardware overrun.  `bytes` is what the USART delivers
this call and `overrun` its overrun flag; the returned list holds the
index of every rx_buffer store performed. -/
def esc_telemetry_update (s : EscTelem) (bytes : List Nat) (overrun : Bool) :
    EscTelem × List Nat :=
  let s1 :=
    if 0 < s.rxBuf.length ∧ s.tick - s.lastByteTime > ESC_TELEM_TIMEOUT_MS then
      { s with rxBuf := [] }
    else s
  let pr := esc_process_bytes s1 bytes
  let s3 := if overrun then { pr.1 with rxBuf := [] } else pr.1
  (s3, pr.2)

/-! ## Auxiliary definitions used by the verification -/

/-- Boolean check of the codec laws for one value: XOR of the four frame
nibbles is zero and the spec decoder recovers value and telemetry bit, for
both settings of the telemetry bit. -/
def codec_check (v : Nat) : Bool :=
  (frame_nibble_xor (dshot_create_packet v true) == 0) &&
  (decode_dshot_frame (dshot_create_packet v true) == some (v, true)) &&
  (frame_nibble_xor (dshot_create_packet v false) == 0) &&
  (decode_dshot_frame (dshot_create_packet v false) == some (v, false))

/-- The counter equation of the spec: frames_sent = successes + errors +
in_flight, with in_flight 1 exactly while a frame is between its send and
its return to IDLE. -/
def counter_invariant (s : Driver) : Prop :=
  s.telemetry.frame_count =
    s.telemetry.success_count + s.telemetry.error_count +
      (if s.state = .idle then 0 else 1)

/-- The driver state after an accepted dshot_send_throttle followed by the
transmit-complete interrupt: the machine sits in WAIT_TELEM. -/
def driver_after_tx : Driver :=
  (dshot_init.step (.sendThrottle 100)).step .txDone

/-- The driver state after an accepted dshot_send_command followed by the
transmit-complete interrupt and four polls, which walk the machine through
WAIT_TELEM, RECEIVING and PROCESSING back to IDLE with an empty capture
buffer (the decode of which fails). -/
def driver_after_command_cycle : Driver :=
  (((((dshot_init.step (.sendCommand 1)).step .txDone).step
      (.update [])).step (.update [])).step (.update [])).step (.update [])

/-- Edge timestamps of an ideal telemetry reply carrying the 16-bit value
0x0C48 (period 0x0C4 = 196 with its correct CRC 0x8), GCR-encoded as the
symbols 0x19 0x1E 0x1D 0x1A and sampled at 224 ticks per reply bit. -/
def gcr_reply_edges : List Nat :=
  [0, 448, 896, 2016, 2240, 2912, 3136, 3808, 4032, 4256, 4480, 4704]

/-- The first nine bytes of the spec's serial-telemetry example packet:
temperature 42, voltage 14.80 V, current 2.50 A, consumption 127 mAh,
erpm field 100. -/
def serial_example_payload : List Nat :=
  [0x2A, 0x05, 0xC8, 0x00, 0xFA, 0x00, 0x7F, 0x00, 0x64]

/-- A driver state sitting in PROCESSING with an empty capture buffer
(whose decode fails). -/
def driver_processing_empty : Driver :=
  { dshot_init with state := .processing }

/-- A driver state sitting in PROCESSING holding the ideal reply edges of
gcr_reply_edges. -/
def driver_processing_reply : Driver :=
  { dshot_init with state := .processing, icBuf := gcr_reply_edges }

/-! ## Theorems -/

/-- Claim C1 (code bug): for the shipped configuration (DShot600,
f_tck = 168 MHz) the header's macro chain truncates the bit time to whole
microseconds (1000000 / 600000 = 1), so the programmed timer period is 168
ticks instead of the 280 = f_tck / (speed * 1000) that the spec, the
DShot600 bitrate and the repository's own DSHOT_REFERENCE.md (280 counts,
duties 105 and 210) prescribe; the emitted duties are 62 and 126, far
outside the 5 percent tolerance around 105 and 210. -/
theorem dshot_timing_constants_bug :
    DSHOT_BIT_TIME_US = 1 ∧
    DSHOT_TIMER_PERIOD = 168 ∧
    spec_timer_period = 280 ∧
    DSHOT_TIMER_PERIOD ≠ spec_timer_period ∧
    DSHOT_BIT_0_DUTY = 62 ∧
    DSHOT_BIT_1_DUTY = 126 := by
  refine ⟨rfl, rfl, rfl, by decide, rfl, rfl⟩

/-- All 2048 codec cases hold, evaluated by the kernel. -/
theorem codec_check_all : (List.range 2048).all codec_check = true := by
  set_option maxRecDepth 8000 in decide

/-- Claim C4: for every value in [0, 2047] and telemetry bit, the frame
built by dshot_create_packet has XOR of its four nibbles equal to zero,
and the spec's CRC-check-and-extract decoder recovers exactly the value
and the telemetry bit. -/
theorem dshot_codec_roundtrip (v : Nat) (t : Bool) (h : v ≤ 2047) :
    frame_nibble_xor (dshot_create_packet v t) = 0 ∧
    decode_dshot_frame (dshot_create_packet v t) = some (v, t) := by
  have hv : v ∈ List.range 2048 := List.mem_range.mpr (by omega)
  have hc : codec_check v = true := List.all_eq_true.mp codec_check_all v hv
  simp only [codec_check, Bool.and_eq_true, beq_iff_eq] at hc
  cases t
  · exact ⟨hc.1.2, hc.2⟩
  · exact ⟨hc.1.1.1, hc.1.1.2⟩

/-- Witness for C4 at the spec's scenario 1: throttle 1046 with telemetry
request encodes to frame 0x82D7 and decodes back. -/
theorem dshot_codec_roundtrip_witness :
    1046 ≤ 2047 ∧
    frame_nibble_xor (dshot_create_packet 1046 true) = 0 ∧
    decode_dshot_frame (dshot_create_packet 1046 true) = some (1046, true) :=
  ⟨by decide, dshot_codec_roundtrip 1046 true (by decide)⟩

/-- Claim C10: the telemetry valid flag is monotone after initialization:
dshot_init clears it, and no event of the driver ever clears it again, so
once any reply has decoded successfully it stays true; valid = true does
not mean the most recent frame succeeded. -/
theorem telemetry_valid_monotone :
    dshot_init.telemetry.valid = false ∧
    ∀ (s : Driver) (e : Event), s.telemetry.valid = true →
      (s.step e).telemetry.valid = true := by
  refine ⟨rfl, ?_⟩
  intro s e h
  cases e <;>
    simp only [Driver.step, dshot_send_throttle, dshot_send_command,
      dshot_tx_done_irq, dshot_rx_done_irq, dshot_update] <;>
    repeat' split <;> simp_all

/-- Witness for C10: from a state with valid already raised, the
transmit-complete interrupt keeps it raised. -/
theorem telemetry_valid_monotone_witness :
    ({ dshot_init with
        telemetry := { dshot_init.telemetry with valid := true } } : Driver).telemetry.valid
      = true ∧
    (({ dshot_init with
        telemetry := { dshot_init.telemetry with valid := true } } : Driver).step
          Event.txDone).telemetry.valid = true :=
  ⟨rfl, telemetry_valid_monotone.2 _ Event.txDone rfl⟩

/-- Claim C5: dshot_send_throttle while not IDLE is the identity on the
whole driver state (state, duty buffer and frames_sent untouched); while
IDLE a value above 2047 is clamped to 2047 and sent as 2047; two
consecutive calls without an intervening state-machine advance leave the
second without any effect and increase frames_sent by exactly 1. -/
theorem send_throttle_contract :
    (∀ (s : Driver) (v : Nat), s.state ≠ .idle → dshot_send_throttle v s = s) ∧
    (∀ (s : Driver) (v : Nat), s.state = .idle → DSHOT_THROTTLE_MAX < v →
      dshot_send_throttle v s = dshot_send_throttle DSHOT_THROTTLE_MAX s) ∧
    (∀ (s : Driver) (v w : Nat), s.state = .idle →
      dshot_send_throttle w (dshot_send_throttle v s) = dshot_send_throttle v s ∧
      (dshot_send_throttle v s).telemetry.frame_count =
        s.telemetry.frame_count + 1) := by
  refine ⟨?_, ?_, ?_⟩
  · intro s v h
    simp [dshot_send_throttle, h]
  · intro s v h hv
    have hv2 : 2047 < v := hv
    simp [dshot_send_throttle, h, DSHOT_THROTTLE_MAX, hv2, Nat.lt_irrefl]
  · intro s v w h
    constructor
    · simp [dshot_send_throttle, h]
    · simp [dshot_send_throttle, h]

/-- Witness for C5: a busy driver ignores throttle 100; an idle driver
clamps 2100 to 2047; two back-to-back sends bump frames_sent once. -/
theorem send_throttle_contract_witness :
    (({ dshot_init with state := DshotState.sending } : Driver).state ≠ DshotState.idle ∧
      dshot_send_throttle 100 { dshot_init with state := DshotState.sending } =
        { dshot_init with state := DshotState.sending }) ∧
    (dshot_init.state = DshotState.idle ∧ DSHOT_THROTTLE_MAX < 2100 ∧
      dshot_send_throttle 2100 dshot_init =
        dshot_send_throttle DSHOT_THROTTLE_MAX dshot_init) ∧
    (dshot_send_throttle 200 (dshot_send_throttle 1046 dshot_init) =
        dshot_send_throttle 1046 dshot_init ∧
      (dshot_send_throttle 1046 dshot_init).telemetry.frame_count =
        dshot_init.telemetry.frame_count + 1) :=
  ⟨⟨by decide, send_throttle_contract.1 _ 100 (by decide)⟩,
   ⟨rfl, by decide, send_throttle_contract.2.1 dshot_init 2100 rfl (by decide)⟩,
   send_throttle_contract.2.2 dshot_init 1046 200 rfl⟩

/-- Claim C6: when the state machine processes a capture buffer whose
decode fails (too few edges or bits, invalid GCR symbol, or reply CRC
mismatch all yield none), the error counter increments by exactly one
while the valid flag, the period/erpm/rpm fields, the success counter and
the one-shot flag are left exactly as they were; the machine returns to
IDLE. -/
theorem telemetry_decode_failure_atomic (s : Driver) (captured : List Nat)
    (hst : s.state = .processing)
    (hdec : dshot_decode_telemetry s.icBuf = none) :
    (dshot_update captured s).telemetry.error_count = s.telemetry.error_count + 1 ∧
    (dshot_update captured s).telemetry.valid = s.telemetry.valid ∧
    (dshot_update captured s).telemetry.period_us = s.telemetry.period_us ∧
    (dshot_update captured s).telemetry.erpm = s.telemetry.erpm ∧
    (dshot_update captured s).telemetry.rpm = s.telemetry.rpm ∧
    (dshot_update captured s).telemetry.success_count = s.telemetry.success_count ∧
    (dshot_update captured s).newTelemetryAvailable = s.newTelemetryAvailable ∧
    (dshot_update captured s).state = .idle := by
  simp [dshot_update, hst, hdec]

/-- Witness for C6: processing an empty capture buffer fails its decode
and bumps only the error counter. -/
theorem telemetry_decode_failure_atomic_witness :
    driver_processing_empty.state = DshotState.processing ∧
    dshot_decode_telemetry driver_processing_empty.icBuf = none ∧
    (dshot_update [] driver_processing_empty).telemetry.error_count =
      driver_processing_empty.telemetry.error_count + 1 :=
  ⟨rfl, rfl, (telemetry_decode_failure_atomic driver_processing_empty [] rfl rfl).1⟩

/-- Composing the two integer divisions of the C code equals the single
division of the spec when the pole count is even:
a / p * 2 / 14 = 2 * a / (p * 14). -/
theorem rpm_two_step_div (a p : Nat) : a / p * 2 / 14 = 2 * a / (p * 14) := by
  have h14 : (14 : Nat) = 2 * 7 := by norm_num
  have hL : a / p * 2 / 14 = a / (p * 7) := by
    rw [Nat.mul_comm (a / p) 2, h14, Nat.mul_div_mul_left _ _ (by norm_num : 0 < 2),
      Nat.div_div_eq_div_mul]
  have hR : 2 * a / (p * 14) = a / (p * 7) := by
    rw [show p * 14 = 2 * (p * 7) by ring,
      Nat.mul_div_mul_left _ _ (by norm_num : 0 < 2)]
  rw [hL, hR]

/-- Inversion of the telemetry decoder: every successful decode result is
the record dshot_mk_telem_result builds from some period. -/
theorem decode_telemetry_inversion (buf : List Nat) (r : TelemResult)
    (h : dshot_decode_telemetry buf = some r) :
    ∃ p : Nat, r = dshot_mk_telem_result p := by
  simp only [dshot_decode_telemetry] at h
  split at h
  · cases h
  · split at h
    · cases h
    · split at h
      · cases h
      · split at h
        · cases h
        · split at h
          · cases h
          · exact ⟨_, (Option.some.inj h).symm⟩

/-- The stored telemetry fields satisfy the spec's rpm equations:
period is the decoded period, erpm = 60000000 / period (Nat division,
also in the period = 0 branch) and rpm = 2 * 60000000 / (period *
MOTOR_POLES). -/
theorem mk_telem_result_props (p : Nat) :
    (dshot_mk_telem_result p).period = p ∧
    (dshot_mk_telem_result p).erpm = 60000000 / p ∧
    (dshot_mk_telem_result p).rpm = 2 * 60000000 / (p * MOTOR_POLES) := by
  unfold dshot_mk_telem_result
  split
  · refine ⟨rfl, rfl, ?_⟩
    show 60000000 / p * 2 / MOTOR_POLES = _
    simp only [MOTOR_POLES]
    exact rpm_two_step_div 60000000 p
  · rename_i hpos
    have hz : p = 0 := Nat.eq_zero_of_not_pos hpos
    subst hz
    simp [MOTOR_POLES]

/-- Claim C7: a reply that passes GCR decode and CRC check is published
with valid raised and the success counter bumped; a zero period yields
zero rpm and erpm (and is not an error), and otherwise
erpm = 60000000 / period while the published mechanical rpm equals
2 * 60000000 / (period * MOTOR_POLES). -/
theorem telemetry_decode_success_publishes (s : Driver) (captured : List Nat)
    (r : TelemResult) (hst : s.state = .processing)
    (hdec : dshot_decode_telemetry s.icBuf = some r) :
    (dshot_update captured s).telemetry.valid = true ∧
    (dshot_update captured s).telemetry.success_count =
      s.telemetry.success_count + 1 ∧
    (dshot_update captured s).telemetry.period_us = r.period ∧
    (dshot_update captured s).telemetry.erpm = r.erpm ∧
    (dshot_update captured s).telemetry.rpm = r.rpm ∧
    (r.period = 0 → r.erpm = 0 ∧ r.rpm = 0) ∧
    (0 < r.period → r.erpm = 60000000 / r.period) ∧
    r.rpm = 2 * 60000000 / (r.period * MOTOR_POLES) := by
  obtain ⟨p, rfl⟩ := decode_telemetry_inversion _ _ hdec
  obtain ⟨hp, he, hr⟩ := mk_telem_result_props p
  refine ⟨by simp [dshot_update, hst, hdec], by simp [dshot_update, hst, hdec],
    by simp [dshot_update, hst, hdec], by simp [dshot_update, hst, hdec],
    by simp [dshot_update, hst, hdec], ?_, ?_, ?_⟩
  · intro h0
    rw [hp] at h0
    subst h0
    rw [he, hr]
    simp
  · intro h0
    rw [he, hp]
  · rw [hr, hp]

/-- Witness for C7 at the spec's scenario 3: an ideal reply carrying
period 196 microseconds decodes to erpm 306122 and rpm 43731 and is
published. -/
theorem telemetry_decode_success_witness :
    dshot_decode_telemetry driver_processing_reply.icBuf =
      some { period := 196, erpm := 306122, rpm := 43731 } ∧
    (dshot_update [] driver_processing_reply).telemetry.valid = true ∧
    (dshot_update [] driver_processing_reply).telemetry.rpm = 43731 :=
  ⟨rfl,
    (telemetry_decode_success_publishes driver_processing_reply []
      { period := 196, erpm := 306122, rpm := 43731 } rfl rfl).1,
    by
      have h := (telemetry_decode_success_publishes driver_processing_reply []
        { period := 196, erpm := 306122, rpm := 43731 } rfl rfl).2.2.2.2.1
      simpa using h⟩

/-- Claim C2, amended: in every reachable state of the bidirectional
driver, the pin is in input-capture mode exactly when the state is
RECEIVING or PROCESSING (so it is never in output-compare mode while
RECEIVING); during WAIT_TELEM the pin is still in output-compare mode,
and during PROCESSING it is still in input-capture mode, contrary to the
claim as stated. -/
theorem pin_mode_matches_state (s : Driver) (h : Reachable s) :
    (s.pin = PinMode.input ↔
      s.state = DshotState.receiving ∨ s.state = DshotState.processing) := by
  induction h with
  | init => simp [dshot_init]
  | step e hr ih =>
    cases e <;>
      simp only [Driver.step, dshot_send_throttle, dshot_send_command,
        dshot_tx_done_irq, dshot_rx_done_irq, dshot_update] <;>
      repeat' split <;> simp_all

/-- Witness for the amended C2 invariant at the initial state. -/
theorem pin_mode_matches_state_witness :
    (dshot_init.pin = PinMode.input ↔
      dshot_init.state = DshotState.receiving ∨
      dshot_init.state = DshotState.processing) :=
  pin_mode_matches_state dshot_init Reachable.init

/-- Counterexample to C2 as stated: after an accepted send and the
transmit-complete interrupt, the driver is reachable, sits in WAIT_TELEM,
and the pin is still configured in output-compare mode (the switch to
input-capture only happens on the later poll). -/
theorem pin_output_in_wait_telem :
    Reachable driver_after_tx ∧
    driver_after_tx.state = DshotState.waitTelem ∧
    driver_after_tx.pin = PinMode.output :=
  ⟨Reachable.step Event.txDone
      (Reachable.step (Event.sendThrottle 100) Reachable.init),
    rfl, rfl⟩

/-- Claim C3, amended: in every state reachable without dshot_send_command,
frames_sent = successes + errors + in_flight, where in_flight is 1 exactly
while a frame is between its send and its return to IDLE.  (Frames started
by dshot_send_command do not increment frames_sent, so each completed
command frame breaks the equation by one; see the counterexample.) -/
theorem counter_equation_no_command (s : Driver) (h : ReachableNoCmd s) :
    counter_invariant s := by
  induction h with
  | init => simp [counter_invariant, dshot_init]
  | step e he hr ih =>
    rename_i t
    simp only [counter_invariant] at ih ⊢
    cases e with
    | sendThrottle v =>
      by_cases hs : t.state = DshotState.idle <;>
        simp_all [Driver.step, dshot_send_throttle]
    | sendCommand c => simp [Event.isSendCommand] at he
    | txDone =>
      by_cases hs : t.state = DshotState.sending <;>
        simp_all [Driver.step, dshot_tx_done_irq]
    | rxDone buf =>
      by_cases hs : t.state = DshotState.receiving <;>
        simp_all [Driver.step, dshot_rx_done_irq]
    | update captured =>
      cases hs : t.state <;> simp only [Driver.step, dshot_update, hs] <;>
        repeat' split <;> simp_all <;> omega

/-- Witness for the amended C3 invariant at the initial state. -/
theorem counter_equation_no_command_witness : counter_invariant dshot_init :=
  counter_equation_no_command dshot_init ReachableNoCmd.init

/-- Counterexample to C3 as stated: an accepted dshot_send_command followed
by the transmit interrupt and four polls reaches a state where the frame
has been retired as an error but frames_sent was never incremented, so
frames_sent = 0 while successes + errors + in_flight = 1. -/
theorem counter_equation_fails_for_command :
    Reachable driver_after_command_cycle ∧
    ¬ counter_invariant driver_after_command_cycle := by
  constructor
  · exact Reachable.step (Event.update [])
      (Reachable.step (Event.update [])
        (Reachable.step (Event.update [])
          (Reachable.step (Event.update [])
            (Reachable.step Event.txDone
              (Reachable.step (Event.sendCommand 1) Reachable.init)))))
  · simp only [counter_invariant]
    decide

/-- Claim C8: when the 10th byte of a serial telemetry packet arrives
(without an inter-byte timeout pending), the parser checks the CRC-8
(polynomial 0xD5, init 0, MSB first) of bytes 0..8 against byte 9; on a
match it populates the record from the big-endian fields, computes
rpm = erpm * 100 * 2 / MOTOR_POLES and raises the one-shot new-data flag;
on a mismatch the record and the flag are untouched; in both cases the
reassembly buffer is reset for the next packet. -/
theorem serial_packet_completion (s : EscTelem) (b : Nat)
    (hlen : s.rxBuf.length = 9)
    (hto : s.tick - s.lastByteTime ≤ ESC_TELEM_TIMEOUT_MS) :
    (esc_telemetry_update s [b] false).1.rxBuf = [] ∧
    (esc_telemetry_crc8 s.rxBuf = b % 256 →
      (esc_telemetry_update s [b] false).1.telem =
        { temperature := s.rxBuf.getD 0 0
          voltage := s.rxBuf.getD 1 0 <<< 8 ||| s.rxBuf.getD 2 0
          current := s.rxBuf.getD 3 0 <<< 8 ||| s.rxBuf.getD 4 0
          consumption := s.rxBuf.getD 5 0 <<< 8 ||| s.rxBuf.getD 6 0
          erpm := s.rxBuf.getD 7 0 <<< 8 ||| s.rxBuf.getD 8 0
          rpm := (s.rxBuf.getD 7 0 <<< 8 ||| s.rxBuf.getD 8 0) * 100 * 2 / MOTOR_POLES
          valid := true
          last_update := s.tick } ∧
      (esc_telemetry_update s [b] false).1.newData = true) ∧
    (esc_telemetry_crc8 s.rxBuf ≠ b % 256 →
      (esc_telemetry_update s [b] false).1.telem = s.telem ∧
      (esc_telemetry_update s [b] false).1.newData = s.newData) := by
  have hto2 : ¬ s.tick - s.lastByteTime > ESC_TELEM_TIMEOUT_MS := not_lt.mpr hto
  have hlt : s.rxBuf.length < ESC_TELEM_PACKET_SIZE := by
    simp [ESC_TELEM_PACKET_SIZE, hlen]
  have htake : (s.rxBuf ++ [b % 256]).take (ESC_TELEM_PACKET_SIZE - 1) = s.rxBuf := by
    show (s.rxBuf ++ [b % 256]).take 9 = s.rxBuf
    rw [← hlen]
    exact List.take_left _ _
  have hget9 : (s.rxBuf ++ [b % 256]).getD 9 0 = b % 256 := by
    rw [List.getD_append_right _ _ _ _ (le_of_eq hlen), hlen]
    simp
  have hlen10 : (s.rxBuf ++ [b % 256]).length ≥ ESC_TELEM_PACKET_SIZE := by
    simp [hlen, ESC_TELEM_PACKET_SIZE]
  have hgetlow : ∀ i, i < 9 → (s.rxBuf ++ [b % 256]).getD i 0 = s.rxBuf.getD i 0 := by
    intro i hi
    exact List.getD_append _ _ _ i (by omega)
  simp only [esc_telemetry_update, esc_process_bytes, esc_process_byte,
    esc_telemetry_parse_packet, hto2, hlt, hlen10, htake, hget9, and_false,
    if_false, if_true, ite_true, ite_false, ge_iff_le]
  by_cases hc : esc_telemetry_crc8 s.rxBuf = b % 256 <;>
    simp_all [List.getElem_append_left, List.getD, hgetlow]

set_option maxRecDepth 4000 in
/-- Witness for C8 at the spec's scenario 5 packet: feeding the correct
CRC byte 23 after the nine payload bytes yields temperature 42, voltage
1480, current 250, consumption 127, erpm 100 and rpm 1428, raises the
flag, and clears the buffer. -/
theorem serial_packet_completion_witness :
    (esc_telemetry_update { esc_telemetry_init with rxBuf := serial_example_payload } [23] false).1.rxBuf = [] ∧
    (esc_telemetry_update { esc_telemetry_init with rxBuf := serial_example_payload } [23] false).1.telem =
      { temperature := 42, voltage := 1480, current := 250, consumption := 127,
        erpm := 100, rpm := 1428, valid := true, last_update := 0 } ∧
    (esc_telemetry_update { esc_telemetry_init with rxBuf := serial_example_payload } [23] false).1.newData = true := by
  have h := serial_packet_completion
    { esc_telemetry_init with rxBuf := serial_example_payload } 23 rfl (by decide)
  obtain ⟨ht, hn⟩ := h.2.1 (by decide)
  refine ⟨h.1, ?_, hn⟩
  rw [ht]
  decide

/-- Every single processed byte keeps the buffer index at most 9 and, when
it stores into the buffer, stores at an index at most 9. -/
theorem esc_process_byte_bounds (s : EscTelem) (b : Nat) (h : s.rxBuf.length ≤ 9) :
    (esc_process_byte s b).1.rxBuf.length ≤ 9 ∧
    ∀ i ∈ (esc_process_byte s b).2.toList, i ≤ 9 := by
  have hlt : s.rxBuf.length < ESC_TELEM_PACKET_SIZE := by
    simp only [ESC_TELEM_PACKET_SIZE]
    omega
  rcases Nat.lt_or_ge s.rxBuf.length 9 with hc | hc
  · have hnot : ¬ (s.rxBuf ++ [b % 256]).length ≥ ESC_TELEM_PACKET_SIZE := by
      simp only [List.length_append, List.length_singleton, ESC_TELEM_PACKET_SIZE,
        ge_iff_le, not_le]
      omega
    simp only [esc_process_byte, hlt, ite_true, if_true]
    rw [if_neg hnot]
    refine ⟨by simpa using by omega, ?_⟩
    intro i hi
    simp only [Option.toList_some, List.mem_singleton] at hi
    omega
  · have hfull : (s.rxBuf ++ [b % 256]).length ≥ ESC_TELEM_PACKET_SIZE := by
      simp only [List.length_append, List.length_singleton, ESC_TELEM_PACKET_SIZE,
        ge_iff_le]
      omega
    simp only [esc_process_byte, hlt, ite_true, if_true]
    rw [if_pos hfull]
    refine ⟨by simp, ?_⟩
    intro i hi
    simp only [Option.toList_some, List.mem_singleton] at hi
    omega

/-- The byte-processing loop preserves the buffer bound and only ever
stores at indices at most 9. -/
theorem esc_process_bytes_bounds (bytes : List Nat) :
    ∀ (s : EscTelem), s.rxBuf.length ≤ 9 →
      (esc_process_bytes s bytes).1.rxBuf.length ≤ 9 ∧
      ∀ i ∈ (esc_process_bytes s bytes).2, i ≤ 9 := by
  induction bytes with
  | nil =>
    intro s h
    simp only [esc_process_bytes]
    exact ⟨h, by simp⟩
  | cons b rest ih =>
    intro s h
    obtain ⟨h1, h2⟩ := esc_process_byte_bounds s b h
    obtain ⟨h3, h4⟩ := ih _ h1
    simp only [esc_process_bytes]
    refine ⟨h3, ?_⟩
    intro i hi
    simp only [List.mem_append] at hi
    rcases hi with hi | hi
    · exact h2 i hi
    · exact h4 i hi

/-- Claim C9: starting from any state whose buffer index is at most 9,
esc_telemetry_update stores into the 10-byte receive buffer only at
indices 0..9 (the index is checked against the packet size before each
write) and ends with the buffer index again at most 9, for any number of
delivered bytes and any overrun flag. -/
theorem serial_buffer_in_bounds (s : EscTelem) (bytes : List Nat) (ov : Bool)
    (h : s.rxBuf.length ≤ 9) :
    (esc_telemetry_update s bytes ov).1.rxBuf.length ≤ 9 ∧
    ∀ i ∈ (esc_telemetry_update s bytes ov).2, i ≤ 9 := by
  by_cases ht : 0 < s.rxBuf.length ∧ s.tick - s.lastByteTime > ESC_TELEM_TIMEOUT_MS
  · obtain ⟨h1, h2⟩ := esc_process_bytes_bounds bytes { s with rxBuf := [] } (by simp)
    refine ⟨?_, ?_⟩
    · cases ov <;> simp [esc_telemetry_update, ht] <;> exact h1
    · cases ov <;> simpa [esc_telemetry_update, ht] using h2
  · obtain ⟨h1, h2⟩ := esc_process_bytes_bounds bytes s h
    refine ⟨?_, ?_⟩
    · cases ov <;> simp [esc_telemetry_update, ht] <;> exact h1
    · cases ov <;> simpa [esc_telemetry_update, ht] using h2

/-- Witness for C9: three bytes fed from the initial state stay in
bounds. -/
theorem serial_buffer_in_bounds_witness :
    (esc_telemetry_update esc_telemetry_init [1, 2, 3] false).1.rxBuf.length ≤ 9 ∧
    ∀ i ∈ (esc_telemetry_update esc_telemetry_init [1, 2, 3] false).2, i ≤ 9 :=
  serial_buffer_in_bounds esc_telemetry_init [1, 2, 3] false (by decide)
